import Mathlib

/-!
# libde265 encoder search tree (`libde265/analyze.h`)

A shallow embedding of the encoder's mode-decision pipeline:

* `Algo_CB_IntraPartMode` : choose between NxN and 2Nx2N intra parts,
* `Algo_CB_Split`         : whether a CB is split or not,
* `Algo_CTB_QScale`       : select the QScale on CTB granularity,
* `EncodingAlgorithm`     : a bundle combining a set of algorithm modules.

Everything that `analyze.h` defines inline (constructors, `setParams`,
`setChildAlgo`, `getQP`, `getPPS_QP`, `getSlice_QPDelta`, `getAlgoCTBQScale`)
is translated from the header.  The bodies of the `analyze` member functions
and of `encode_cb_*` are not part of the header; they are modelled from the
design specification and marked as such.

C++ objects are records, a member function that mutates `*this` returns the
updated record, and an object pointer is an `Option` (`none` is `NULL`).
-/

/-! ## Pointers -/

/-- A C++ object pointer: `none` is `NULL`, `some a` points to an object whose
current value is `a`. -/
abbrev Ptr (α : Type) : Type := Option α

/-- The null pointer constant. -/
abbrev NULL {α : Type} : Ptr α := none

/-! ## Intra part-mode deciders: configuration state -/

/-- Modelled from the spec: the `PartMode` enumeration is declared outside
`analyze.h`; the two intra partition modes the specification names
(one 2Nx2N unit or four NxN units). -/
inductive PartMode where
  | PART_2Nx2N
  | PART_NxN
  deriving DecidableEq, Repr

/-- Source: `Algo_CB_IntraPartMode_Fixed::params`. -/
structure Algo_CB_IntraPartMode_Fixed.params where
  partMode : PartMode
  deriving DecidableEq, Repr

/-- Source: `params() : partMode(PART_2Nx2N) { }` -/
def Algo_CB_IntraPartMode_Fixed.params.new : Algo_CB_IntraPartMode_Fixed.params :=
  { partMode := PartMode.PART_2Nx2N }

/-- Source: `class Algo_CB_IntraPartMode_Fixed`: its only data member is `mParams`. -/
structure Algo_CB_IntraPartMode_Fixed where
  mParams : Algo_CB_IntraPartMode_Fixed.params
  deriving DecidableEq, Repr

/-- Source: `Algo_CB_IntraPartMode_Fixed() { }`: `mParams` is default-constructed. -/
def Algo_CB_IntraPartMode_Fixed.new : Algo_CB_IntraPartMode_Fixed :=
  { mParams := Algo_CB_IntraPartMode_Fixed.params.new }

/-- Source: `void setParams(const params& p) { mParams=p; }` -/
def Algo_CB_IntraPartMode_Fixed.setParams (self : Algo_CB_IntraPartMode_Fixed)
    (p : Algo_CB_IntraPartMode_Fixed.params) : Algo_CB_IntraPartMode_Fixed :=
  { self with mParams := p }

/-- Source: `class Algo_CB_IntraPartMode_BruteForce`: no data members. -/
structure Algo_CB_IntraPartMode_BruteForce where
  deriving DecidableEq, Repr

/-- The abstract base `class Algo_CB_IntraPartMode` as the closed sum of its
two implementations in `analyze.h`. -/
inductive Algo_CB_IntraPartMode where
  | BruteForce (a : Algo_CB_IntraPartMode_BruteForce)
  | Fixed (a : Algo_CB_IntraPartMode_Fixed)
  deriving DecidableEq, Repr

/-! ## CB split decider: wiring state -/

/-- Source: `class Algo_CB_Split_BruteForce : public Algo_CB_Split`; its only data
member is the inherited `Algo_CB_IntraPartMode* mIntraPartModeAlgo`. -/
structure Algo_CB_Split_BruteForce where
  mIntraPartModeAlgo : Ptr Algo_CB_IntraPartMode
  deriving DecidableEq, Repr

/-- Default construction of a split decider.  Neither `Algo_CB_Split` nor
`Algo_CB_Split_BruteForce` declares a constructor, so nothing is written to
`mIntraPartModeAlgo`: the member keeps whatever value `indeterminate` the
storage of the object held before. -/
def Algo_CB_Split_BruteForce.new (indeterminate : Ptr Algo_CB_IntraPartMode) :
    Algo_CB_Split_BruteForce :=
  { mIntraPartModeAlgo := indeterminate }

/-- Source: `void setChildAlgo(Algo_CB_IntraPartMode* algo) { mIntraPartModeAlgo = algo; }` -/
def Algo_CB_Split_BruteForce.setChildAlgo (self : Algo_CB_Split_BruteForce)
    (algo : Ptr Algo_CB_IntraPartMode) : Algo_CB_Split_BruteForce :=
  { self with mIntraPartModeAlgo := algo }

/-! ## CTB QScale selector: wiring and configuration state -/

/-- Source: `Algo_CTB_QScale_Constant::params`. -/
structure Algo_CTB_QScale_Constant.params where
  mQP : Int
  deriving DecidableEq, Repr

/-- Source: `params() : mQP(27) { }` -/
def Algo_CTB_QScale_Constant.params.new : Algo_CTB_QScale_Constant.params :=
  { mQP := 27 }

/-- Source: `class Algo_CTB_QScale_Constant : public Algo_CTB_QScale`: the inherited
`Algo_CB_Split* mChildAlgo` and the private `params mParams`. -/
structure Algo_CTB_QScale_Constant where
  mChildAlgo : Ptr Algo_CB_Split_BruteForce
  mParams : Algo_CTB_QScale_Constant.params
  deriving DecidableEq, Repr

/-- Default construction: the base constructor
`Algo_CTB_QScale() : mChildAlgo(NULL) { }` runs, then `mParams` is
default-constructed by `params()`. -/
def Algo_CTB_QScale_Constant.new : Algo_CTB_QScale_Constant :=
  { mChildAlgo := NULL, mParams := Algo_CTB_QScale_Constant.params.new }

/-- Source: `void setChildAlgo(Algo_CB_Split* algo) { mChildAlgo = algo; }` -/
def Algo_CTB_QScale_Constant.setChildAlgo (self : Algo_CTB_QScale_Constant)
    (algo : Ptr Algo_CB_Split_BruteForce) : Algo_CTB_QScale_Constant :=
  { self with mChildAlgo := algo }

/-- Source: `void setParams(const params& p) { mParams=p; }` -/
def Algo_CTB_QScale_Constant.setParams (self : Algo_CTB_QScale_Constant)
    (p : Algo_CTB_QScale_Constant.params) : Algo_CTB_QScale_Constant :=
  { self with mParams := p }

/-- Source: `int getQP() const { return mParams.mQP; }` -/
def Algo_CTB_QScale_Constant.getQP (self : Algo_CTB_QScale_Constant) : Int :=
  self.mParams.mQP

/-! ## The encoding-algorithm bundle -/

/-- Source: `virtual int getSlice_QPDelta() const { return 0; }` of the base class
`EncodingAlgorithm`; the receiver is not inspected. -/
def EncodingAlgorithm.getSlice_QPDelta {α : Type} (_self : α) : Int := 0

/-- Source: `class EncodingAlgorithm_Custom : public EncodingAlgorithm`: its four
private algorithm modules. -/
structure EncodingAlgorithm_Custom where
  mAlgo_CTB_QScale_Constant : Algo_CTB_QScale_Constant
  mAlgo_CB_Split_BruteForce : Algo_CB_Split_BruteForce
  mAlgo_CB_IntraPartMode_BruteForce : Algo_CB_IntraPartMode_BruteForce
  mAlgo_CB_IntraPartMode_Fixed : Algo_CB_IntraPartMode_Fixed
  deriving DecidableEq, Repr

/-- Default construction of the bundle (it declares no constructor): every
member is default-constructed in declaration order.  The split decider's
child reference is left `indeterminate`, see `Algo_CB_Split_BruteForce.new`. -/
def EncodingAlgorithm_Custom.new (indeterminate : Ptr Algo_CB_IntraPartMode) :
    EncodingAlgorithm_Custom :=
  { mAlgo_CTB_QScale_Constant := Algo_CTB_QScale_Constant.new
    mAlgo_CB_Split_BruteForce := Algo_CB_Split_BruteForce.new indeterminate
    mAlgo_CB_IntraPartMode_BruteForce := {}
    mAlgo_CB_IntraPartMode_Fixed := Algo_CB_IntraPartMode_Fixed.new }

/-- Source: `virtual Algo_CTB_QScale* getAlgoCTBQScale() { return &mAlgo_CTB_QScale_Constant; }`:
the object the returned pointer refers to. -/
def EncodingAlgorithm_Custom.getAlgoCTBQScale (self : EncodingAlgorithm_Custom) :
    Algo_CTB_QScale_Constant :=
  self.mAlgo_CTB_QScale_Constant

/-- Source: `virtual int getPPS_QP() const { return mAlgo_CTB_QScale_Constant.getQP(); }` -/
def EncodingAlgorithm_Custom.getPPS_QP (self : EncodingAlgorithm_Custom) : Int :=
  self.mAlgo_CTB_QScale_Constant.getQP

/-- Source: `EncodingAlgorithm_Custom` does not override `getSlice_QPDelta`, so the
call dispatches to `EncodingAlgorithm::getSlice_QPDelta`. -/
def EncodingAlgorithm_Custom.getSlice_QPDelta (self : EncodingAlgorithm_Custom) : Int :=
  EncodingAlgorithm.getSlice_QPDelta self

/-- A member call made through the pointer that `getAlgoCTBQScale()` returns:
`algo.getAlgoCTBQScale()->f(...)` updates the member
`mAlgo_CTB_QScale_Constant` in place and touches no other member. -/
def EncodingAlgorithm_Custom.onAlgoCTBQScale (self : EncodingAlgorithm_Custom)
    (f : Algo_CTB_QScale_Constant → Algo_CTB_QScale_Constant) : EncodingAlgorithm_Custom :=
  { self with mAlgo_CTB_QScale_Constant := f self.getAlgoCTBQScale }

/-- Configuring the bundle's constant-QP selector:
`getAlgoCTBQScale()->setParams(p)`. -/
def EncodingAlgorithm_Custom.configureQP (self : EncodingAlgorithm_Custom)
    (p : Algo_CTB_QScale_Constant.params) : EncodingAlgorithm_Custom :=
  self.onAlgoCTBQScale (fun a => a.setParams p)

/-- The bundle state reached from `self` by a sequence of configurations of
its constant-QP selector, applied in order. -/
def EncodingAlgorithm_Custom.configureAll (self : EncodingAlgorithm_Custom)
    (ps : List Algo_CTB_QScale_Constant.params) : EncodingAlgorithm_Custom :=
  ps.foldl EncodingAlgorithm_Custom.configureQP self

/-! ## The search: data model

The bodies of the `analyze` member functions live outside `analyze.h`.  The
definitions of this part follow the design specification (sections 3, 4 and 6)
and take the external collaborators as parameters. -/

/-- Modelled from the spec: `enum IntraPredMode` is declared outside
`analyze.h`; a prediction mode is identified by its prediction-mode index. -/
abbrev IntraPredMode : Type := Nat

/-- Modelled from the spec: the coding-block tree node `enc_cb` is declared
outside `analyze.h`.  Section 3: position, log2 size, tree depth, QP used; an
intra leaf carries the chosen partition mode and its prediction-mode
selection(s) and has no children; a split node has exactly four children, in
Z-order, and no prediction mode of its own. -/
inductive enc_cb where
  | leaf (x0 y0 log2CbSize ctDepth : Nat) (qp : Int) (partMode : PartMode)
      (intra_pred_modes : List IntraPredMode)
  | split (x0 y0 log2CbSize ctDepth : Nat) (qp : Int) (c0 c1 c2 c3 : enc_cb)
  deriving DecidableEq, Repr

/-- The part modes of the leaves of a CB tree, in pre-order Z-quadrant order. -/
def enc_cb.leafPartModes : enc_cb → List PartMode
  | enc_cb.leaf _ _ _ _ _ pm _ => [pm]
  | enc_cb.split _ _ _ _ _ c0 c1 c2 c3 =>
      c0.leafPartModes ++ c1.leafPartModes ++ c2.leafPartModes ++ c3.leafPartModes

/-- The QP fields of the leaves of a CB tree, in pre-order Z-quadrant order. -/
def enc_cb.leafQPs : enc_cb → List Int
  | enc_cb.leaf _ _ _ _ qp _ _ => [qp]
  | enc_cb.split _ _ _ _ _ c0 c1 c2 c3 =>
      c0.leafQPs ++ c1.leafQPs ++ c2.leafQPs ++ c3.leafQPs

/-- Modelled from the spec: `encoder_context` is declared outside `analyze.h`;
of the global configuration of section 3 the search reads the minimum CB size
(as a log2) and the maximum split depth. -/
structure encoder_context where
  Log2MinCbSize : Nat
  maxDepth : Nat
  deriving DecidableEq, Repr

/-- Modelled from the spec: the external collaborators of section 6, for one
input image.  `S` is the checkpointable state a candidate trial starts from
(entropy/context-model state and the reconstructed reference samples), `C` the
type of RD costs.

* `find_best_intra_mode s x y log2BlkSize`: best-intra-mode search primitive;
* `reconstruct s x y log2BlkSize mode`: the state once the block is
  reconstructed with `mode`, which later quadrants are conditioned on;
* `evaluate s cb`: cost-evaluation primitive for a leaf candidate, with the
  state the entropy coder leaves behind after coding it;
* `split_flag_cost s x y log2CbSize ctDepth`: bit cost of signaling a split
  flag. -/
structure Primitives (S C : Type) where
  find_best_intra_mode : S → Nat → Nat → Nat → IntraPredMode
  reconstruct : S → Nat → Nat → Nat → IntraPredMode → S
  evaluate : S → enc_cb → C × S
  split_flag_cost : S → Nat → Nat → Nat → Nat → C

/-- Modelled from the spec: what a decision stage hands back to its caller
(sections 4.2 and 4.3: a CB subtree plus its RD cost), together with the
state after coding along that subtree. -/
structure Analysis (S C : Type) where
  cb : enc_cb
  rd_cost : C
  ctx : S

section Search

variable {S C : Type}

/-! ## Intra part-mode decision (specification section 4.3) -/

/-- Modelled from the spec: the 2Nx2N candidate, a single best-intra-mode
search over the whole block, evaluated by the cost primitive. -/
def candidate_2Nx2N (prim : Primitives S C) (ctxModel : S)
    (x0 y0 log2CbSize ctDepth : Nat) (qp : Int) : Analysis S C :=
  let mode := prim.find_best_intra_mode ctxModel x0 y0 log2CbSize
  let cb := enc_cb.leaf x0 y0 log2CbSize ctDepth qp PartMode.PART_2Nx2N [mode]
  { cb := cb, rd_cost := (prim.evaluate ctxModel cb).1, ctx := (prim.evaluate ctxModel cb).2 }

/-- Modelled from the spec: the four best-intra-mode searches of the NxN
candidate, one per quadrant in Z-order (top-left, top-right, bottom-left,
bottom-right), each conditioned on the previously reconstructed quadrants. -/
def intra_modes_NxN (prim : Primitives S C) (ctxModel : S)
    (x0 y0 log2CbSize : Nat) : List IntraPredMode :=
  let l := log2CbSize - 1
  let h := 2 ^ l
  let m0 := prim.find_best_intra_mode ctxModel x0 y0 l
  let s1 := prim.reconstruct ctxModel x0 y0 l m0
  let m1 := prim.find_best_intra_mode s1 (x0 + h) y0 l
  let s2 := prim.reconstruct s1 (x0 + h) y0 l m1
  let m2 := prim.find_best_intra_mode s2 x0 (y0 + h) l
  let s3 := prim.reconstruct s2 x0 (y0 + h) l m2
  let m3 := prim.find_best_intra_mode s3 (x0 + h) (y0 + h) l
  [m0, m1, m2, m3]

/-- Modelled from the spec: the NxN candidate, evaluated by the cost
primitive from the same starting state as the 2Nx2N candidate. -/
def candidate_NxN (prim : Primitives S C) (ctxModel : S)
    (x0 y0 log2CbSize ctDepth : Nat) (qp : Int) : Analysis S C :=
  let cb := enc_cb.leaf x0 y0 log2CbSize ctDepth qp PartMode.PART_NxN
    (intra_modes_NxN prim ctxModel x0 y0 log2CbSize)
  { cb := cb, rd_cost := (prim.evaluate ctxModel cb).1, ctx := (prim.evaluate ctxModel cb).2 }

/-- Modelled from the spec: NxN is structurally legal when the block is not
already at minimum size and the tree depth equals the maximum. -/
def NxN_legal (ectx : encoder_context) (log2CbSize ctDepth : Nat) : Bool :=
  decide (log2CbSize ≠ ectx.Log2MinCbSize) && decide (ctDepth = ectx.maxDepth)

/-- Modelled from the spec: `Algo_CB_IntraPartMode_BruteForce::analyze`
(declared in `analyze.h`, body elsewhere).  Evaluates the 2Nx2N candidate
and, whenever NxN is structurally legal, the NxN candidate, compares total RD
cost and keeps the cheaper; ties keep the simpler 2Nx2N. -/
def Algo_CB_IntraPartMode_BruteForce.analyze [LinearOrder C]
    (_self : Algo_CB_IntraPartMode_BruteForce) (ectx : encoder_context)
    (prim : Primitives S C) (ctxModel : S)
    (x0 y0 log2CbSize ctDepth : Nat) (qp : Int) : Analysis S C :=
  let cb_2Nx2N := candidate_2Nx2N prim ctxModel x0 y0 log2CbSize ctDepth qp
  if NxN_legal ectx log2CbSize ctDepth then
    let cb_NxN := candidate_NxN prim ctxModel x0 y0 log2CbSize ctDepth qp
    if cb_NxN.rd_cost < cb_2Nx2N.rd_cost then cb_NxN else cb_2Nx2N
  else cb_2Nx2N

/-- Modelled from the spec: `Algo_CB_IntraPartMode_Fixed::analyze` (declared
in `analyze.h`, body elsewhere).  Always uses the configured part mode; if NxN
is configured but the CB tree is not at maximum depth, 2Nx2N is used
instead. -/
def Algo_CB_IntraPartMode_Fixed.analyze
    (self : Algo_CB_IntraPartMode_Fixed) (ectx : encoder_context)
    (prim : Primitives S C) (ctxModel : S)
    (x0 y0 log2CbSize ctDepth : Nat) (qp : Int) : Analysis S C :=
  let partMode :=
    if self.mParams.partMode = PartMode.PART_NxN ∧ ctDepth ≠ ectx.maxDepth
    then PartMode.PART_2Nx2N else self.mParams.partMode
  match partMode with
  | PartMode.PART_2Nx2N => candidate_2Nx2N prim ctxModel x0 y0 log2CbSize ctDepth qp
  | PartMode.PART_NxN => candidate_NxN prim ctxModel x0 y0 log2CbSize ctDepth qp

/-- Virtual dispatch of `Algo_CB_IntraPartMode::analyze`. -/
def Algo_CB_IntraPartMode.analyze [LinearOrder C]
    (self : Algo_CB_IntraPartMode) (ectx : encoder_context)
    (prim : Primitives S C) (ctxModel : S)
    (x0 y0 log2CbSize ctDepth : Nat) (qp : Int) : Analysis S C :=
  match self with
  | Algo_CB_IntraPartMode.BruteForce a => a.analyze ectx prim ctxModel x0 y0 log2CbSize ctDepth qp
  | Algo_CB_IntraPartMode.Fixed a => a.analyze ectx prim ctxModel x0 y0 log2CbSize ctDepth qp

/-! ## CB split decision (specification section 4.2) -/

/-- Modelled from the spec: splitting is permitted when the block size is
above the minimum and the depth below the maximum. -/
def can_split_CB (ectx : encoder_context) (log2CbSize ctDepth : Nat) : Bool :=
  decide (ectx.Log2MinCbSize < log2CbSize) && decide (ctDepth < ectx.maxDepth)

/-- Modelled from the spec: the forced no-split candidate (`encode_cb_no_split`
is declared in `analyze.h`, body elsewhere): the intra partition-mode decider
invoked on the full block, from the given state snapshot. -/
def encode_cb_no_split [LinearOrder C] (intra : Algo_CB_IntraPartMode)
    (ectx : encoder_context) (prim : Primitives S C) (ctxModel : S)
    (x0 y0 log2CbSize ctDepth : Nat) (qp : Int) : Analysis S C :=
  intra.analyze ectx prim ctxModel x0 y0 log2CbSize ctDepth qp

/-- Modelled from the spec: assembling the split candidate from the results
of the four quadrants: the RD costs are summed and the bit cost of signaling
the split flag is added; the state is the one after the last quadrant. -/
def split_node [Add C] (prim : Primitives S C) (ctxModel : S)
    (x0 y0 log2CbSize ctDepth : Nat) (qp : Int)
    (a0 a1 a2 a3 : Analysis S C) : Analysis S C :=
  { cb := enc_cb.split x0 y0 log2CbSize ctDepth qp a0.cb a1.cb a2.cb a3.cb
    rd_cost := a0.rd_cost + a1.rd_cost + a2.rd_cost + a3.rd_cost
      + prim.split_flag_cost ctxModel x0 y0 log2CbSize ctDepth
    ctx := a3.ctx }

/-- Modelled from the spec: the brute-force split decision (`encode_cb_may_split`
and `Algo_CB_Split_BruteForce::analyze` are declared in `analyze.h`, bodies
elsewhere), with the child algorithm already dereferenced.

1. evaluate the no-split candidate from the state snapshot;
2. if splitting is permitted, recurse into the four quadrants at depth+1 with
   the same QP, starting from the same snapshot and advancing the state
   quadrant by quadrant in Z-order;
3. commit to the cheaper one, ties toward no-split. -/
def encode_cb_may_split [LinearOrder C] [Add C] (intra : Algo_CB_IntraPartMode)
    (ectx : encoder_context) (prim : Primitives S C) (qp : Int) :
    (log2CbSize : Nat) → (ctxModel : S) → (x0 y0 ctDepth : Nat) → Analysis S C
  | 0, ctxModel, x0, y0, ctDepth =>
      encode_cb_no_split intra ectx prim ctxModel x0 y0 0 ctDepth qp
  | l + 1, ctxModel, x0, y0, ctDepth =>
      let cb_no_split := encode_cb_no_split intra ectx prim ctxModel x0 y0 (l + 1) ctDepth qp
      if can_split_CB ectx (l + 1) ctDepth then
        let a0 := encode_cb_may_split intra ectx prim qp l ctxModel x0 y0 (ctDepth + 1)
        let a1 := encode_cb_may_split intra ectx prim qp l a0.ctx (x0 + 2 ^ l) y0 (ctDepth + 1)
        let a2 := encode_cb_may_split intra ectx prim qp l a1.ctx x0 (y0 + 2 ^ l) (ctDepth + 1)
        let a3 := encode_cb_may_split intra ectx prim qp l a2.ctx (x0 + 2 ^ l) (y0 + 2 ^ l)
          (ctDepth + 1)
        let cb_split := split_node prim ctxModel x0 y0 (l + 1) ctDepth qp a0 a1 a2 a3
        if cb_split.rd_cost < cb_no_split.rd_cost then cb_split else cb_no_split
      else cb_no_split

/-- Modelled from the spec: the forced split candidate (`encode_cb_split` is
declared in `analyze.h`, body elsewhere): the four quadrants of the block are
decided in Z-order at depth+1 with the same QP, starting from the given state
snapshot, and assembled into a split node. -/
def encode_cb_split [LinearOrder C] [Add C] (intra : Algo_CB_IntraPartMode)
    (ectx : encoder_context) (prim : Primitives S C) (ctxModel : S)
    (x0 y0 log2CbSize ctDepth : Nat) (qp : Int) : Analysis S C :=
  let l := log2CbSize - 1
  let a0 := encode_cb_may_split intra ectx prim qp l ctxModel x0 y0 (ctDepth + 1)
  let a1 := encode_cb_may_split intra ectx prim qp l a0.ctx (x0 + 2 ^ l) y0 (ctDepth + 1)
  let a2 := encode_cb_may_split intra ectx prim qp l a1.ctx x0 (y0 + 2 ^ l) (ctDepth + 1)
  let a3 := encode_cb_may_split intra ectx prim qp l a2.ctx (x0 + 2 ^ l) (y0 + 2 ^ l)
    (ctDepth + 1)
  split_node prim ctxModel x0 y0 log2CbSize ctDepth qp a0 a1 a2 a3

/-- Modelled from the spec: `Algo_CB_Split_BruteForce::analyze`.  The child
intra partition-mode algorithm must be set before use; calling without one is
a fatal configuration error (`none`). -/
def Algo_CB_Split_BruteForce.analyze [LinearOrder C] [Add C]
    (self : Algo_CB_Split_BruteForce) (ectx : encoder_context)
    (prim : Primitives S C) (ctxModel : S)
    (ctb_x ctb_y log2CtbSize ctDepth : Nat) (qp : Int) : Option (Analysis S C) :=
  match self.mIntraPartModeAlgo with
  | none => none
  | some intra => some (encode_cb_may_split intra ectx prim qp log2CtbSize ctxModel ctb_x ctb_y ctDepth)

/-! ## CTB QScale selection (specification section 4.1) -/

/-- Modelled from the spec: `Algo_CTB_QScale_Constant::analyze` (declared in
`analyze.h`, body elsewhere).  Delegates entirely to the child CB-split
decider with the configured fixed QP; an unwired child is a fatal
configuration error (`none`). -/
def Algo_CTB_QScale_Constant.analyze [LinearOrder C] [Add C]
    (self : Algo_CTB_QScale_Constant) (ectx : encoder_context)
    (prim : Primitives S C) (ctxModel : S)
    (ctb_x ctb_y log2CtbSize ctDepth : Nat) : Option (Analysis S C) :=
  match self.mChildAlgo with
  | none => none
  | some child => child.analyze ectx prim ctxModel ctb_x ctb_y log2CtbSize ctDepth self.getQP

end Search

/-! ## A concrete instance of the collaborators

Used to evaluate the definitions on explicit inputs. -/

/-- A small concrete instance of the external collaborators with
`S = Nat` and `C = Nat`: the state counts coded symbols, a 2Nx2N leaf costs
`4 ^ log2CbSize` on top of its mode count, an NxN leaf a quarter of that per
quadrant plus its four modes, a split node costs nothing by itself. -/
def testPrimitives : Primitives Nat Nat where
  find_best_intra_mode := fun s x y l => (s + x + y + l) % 35
  reconstruct := fun s _ _ _ m => s + m + 1
  evaluate := fun s cb =>
    match cb with
    | enc_cb.leaf _ _ l _ _ PartMode.PART_2Nx2N ms => (4 ^ l + ms.length, s + 1)
    | enc_cb.leaf _ _ l _ _ PartMode.PART_NxN ms => (4 ^ (l - 1) + ms.length, s + 4)
    | enc_cb.split _ _ _ _ _ _ _ _ _ => (0, s)
  split_flag_cost := fun _ _ _ _ _ => 1

/-- A configuration with minimum CB size 8x8 and maximum depth 2. -/
def testContext : encoder_context := { Log2MinCbSize := 3, maxDepth := 2 }

/-! ## Helper lemmas -/

section Lemmas

variable {S C : Type}

/-- The unfolding of the split decision on a block whose log2 size is
positive. -/
theorem encode_cb_may_split_succ [LinearOrder C] [Add C] (intra : Algo_CB_IntraPartMode)
    (ectx : encoder_context) (prim : Primitives S C) (qp : Int)
    (l : Nat) (ctxModel : S) (x0 y0 ctDepth : Nat) :
    encode_cb_may_split intra ectx prim qp (l + 1) ctxModel x0 y0 ctDepth =
      if can_split_CB ectx (l + 1) ctDepth then
        if (encode_cb_split intra ectx prim ctxModel x0 y0 (l + 1) ctDepth qp).rd_cost <
            (encode_cb_no_split intra ectx prim ctxModel x0 y0 (l + 1) ctDepth qp).rd_cost
        then encode_cb_split intra ectx prim ctxModel x0 y0 (l + 1) ctDepth qp
        else encode_cb_no_split intra ectx prim ctxModel x0 y0 (l + 1) ctDepth qp
      else encode_cb_no_split intra ectx prim ctxModel x0 y0 (l + 1) ctDepth qp := by
  simp only [encode_cb_may_split, encode_cb_split, Nat.add_sub_cancel]

/-- The unfolding of the brute-force intra partition-mode decision. -/
theorem Algo_CB_IntraPartMode_BruteForce_analyze_eq [LinearOrder C]
    (self : Algo_CB_IntraPartMode_BruteForce)
    (ectx : encoder_context) (prim : Primitives S C) (ctxModel : S)
    (x0 y0 log2CbSize ctDepth : Nat) (qp : Int) :
    self.analyze ectx prim ctxModel x0 y0 log2CbSize ctDepth qp =
      if NxN_legal ectx log2CbSize ctDepth = true then
        if (candidate_NxN prim ctxModel x0 y0 log2CbSize ctDepth qp).rd_cost <
            (candidate_2Nx2N prim ctxModel x0 y0 log2CbSize ctDepth qp).rd_cost
        then candidate_NxN prim ctxModel x0 y0 log2CbSize ctDepth qp
        else candidate_2Nx2N prim ctxModel x0 y0 log2CbSize ctDepth qp
      else candidate_2Nx2N prim ctxModel x0 y0 log2CbSize ctDepth qp :=
  rfl

/-- A block on which splitting is permitted has positive log2 size. -/
theorem can_split_CB_pos (ectx : encoder_context) (log2CbSize ctDepth : Nat)
    (h : can_split_CB ectx log2CbSize ctDepth = true) :
    ∃ l, log2CbSize = l + 1 := by
  simp only [can_split_CB, Bool.and_eq_true, decide_eq_true_eq] at h
  exact ⟨log2CbSize - 1, by omega⟩

/-- Every intra partition-mode decider returns a single leaf that carries the
QP it was invoked with. -/
theorem Algo_CB_IntraPartMode_analyze_leafQPs [LinearOrder C] (intra : Algo_CB_IntraPartMode)
    (ectx : encoder_context) (prim : Primitives S C) (ctxModel : S)
    (x0 y0 log2CbSize ctDepth : Nat) (qp : Int) :
    (intra.analyze ectx prim ctxModel x0 y0 log2CbSize ctDepth qp).cb.leafQPs = [qp] := by
  cases intra with
  | BruteForce a =>
    simp only [Algo_CB_IntraPartMode.analyze, Algo_CB_IntraPartMode_BruteForce.analyze]
    split_ifs <;> simp [candidate_2Nx2N, candidate_NxN, enc_cb.leafQPs]
  | Fixed a =>
    simp only [Algo_CB_IntraPartMode.analyze, Algo_CB_IntraPartMode_Fixed.analyze]
    split <;> simp [candidate_2Nx2N, candidate_NxN, enc_cb.leafQPs]

/-- The split decision hands the QP it was invoked with down to every leaf of
the subtree it returns. -/
theorem encode_cb_may_split_leafQPs [LinearOrder C] [Add C] (intra : Algo_CB_IntraPartMode)
    (ectx : encoder_context) (prim : Primitives S C) (qp : Int) (log2CbSize : Nat) :
    ∀ (ctxModel : S) (x0 y0 ctDepth : Nat),
      ∀ q ∈ (encode_cb_may_split intra ectx prim qp log2CbSize ctxModel x0 y0 ctDepth).cb.leafQPs,
        q = qp := by
  induction log2CbSize with
  | zero =>
    intro ctxModel x0 y0 ctDepth q hq
    simp only [encode_cb_may_split, encode_cb_no_split,
      Algo_CB_IntraPartMode_analyze_leafQPs, List.mem_singleton] at hq
    exact hq
  | succ l ih =>
    intro ctxModel x0 y0 ctDepth q hq
    rw [encode_cb_may_split_succ] at hq
    split_ifs at hq
    · simp only [encode_cb_split, split_node, enc_cb.leafQPs, List.mem_append,
        Nat.add_sub_cancel] at hq
      rcases hq with ((h | h) | h) | h
      · exact ih _ _ _ _ q h
      · exact ih _ _ _ _ q h
      · exact ih _ _ _ _ q h
      · exact ih _ _ _ _ q h
    · simpa [encode_cb_no_split, Algo_CB_IntraPartMode_analyze_leafQPs] using hq
    · simpa [encode_cb_no_split, Algo_CB_IntraPartMode_analyze_leafQPs] using hq

end Lemmas

/-! ## Configuration and wiring (from `analyze.h`) -/

/-- C1: for every `EncodingAlgorithm_Custom` bundle, in every state reached by
any sequence of configurations of its constant-QP selector, `getPPS_QP()`
equals `getQP()` of the selector that `getAlgoCTBQScale()` returns; once that
selector is configured with QP 27, `getPPS_QP()` is 27. -/
theorem getPPS_QP_eq_getAlgoCTBQScale_getQP (b : EncodingAlgorithm_Custom)
    (ps : List Algo_CTB_QScale_Constant.params) :
    (b.configureAll ps).getPPS_QP = (b.configureAll ps).getAlgoCTBQScale.getQP ∧
    ((b.configureAll ps).configureQP { mQP := 27 }).getPPS_QP = 27 :=
  ⟨rfl, rfl⟩

/-- C5: after `setParams(p)` the selector's `getQP()` returns `p.mQP`, and
after `setParams(p1); setParams(p2)` it returns `p2.mQP`: the last
configuration wins. -/
theorem setParams_getQP (a : Algo_CTB_QScale_Constant)
    (p p1 p2 : Algo_CTB_QScale_Constant.params) :
    (a.setParams p).getQP = p.mQP ∧ ((a.setParams p1).setParams p2).getQP = p2.mQP :=
  ⟨rfl, rfl⟩

/-- C6: `getSlice_QPDelta()` of an `EncodingAlgorithm_Custom` returns 0, in the
freshly constructed bundle and after any sequence of configurations of its
constant-QP selector. -/
theorem getSlice_QPDelta_eq_zero (b : EncodingAlgorithm_Custom)
    (ps : List Algo_CTB_QScale_Constant.params) :
    b.getSlice_QPDelta = 0 ∧ (b.configureAll ps).getSlice_QPDelta = 0 :=
  ⟨rfl, rfl⟩

/-- C8 (evaluation at the failing input): a split decider default-constructed
in storage that held a non-null value keeps that value in
`mIntraPartModeAlgo`, so the member is not `NULL` although `setChildAlgo` was
never called; the freshly constructed CTB-QP selector does have
`mChildAlgo == NULL`. -/
theorem fresh_split_decider_child_not_null :
    (Algo_CB_Split_BruteForce.new
        (some (Algo_CB_IntraPartMode.BruteForce {}))).mIntraPartModeAlgo ≠ NULL ∧
    Algo_CTB_QScale_Constant.new.mChildAlgo = NULL := by
  constructor
  · simp [Algo_CB_Split_BruteForce.new]
  · rfl

/-- C9: a default-constructed `Algo_CTB_QScale_Constant` on which `setParams`
was never called has `getQP() == 27`, and a default-constructed
`EncodingAlgorithm_Custom` has `getPPS_QP() == 27`. -/
theorem default_getQP_eq_27 (indeterminate : Ptr Algo_CB_IntraPartMode) :
    Algo_CTB_QScale_Constant.new.getQP = 27 ∧
    (EncodingAlgorithm_Custom.new indeterminate).getPPS_QP = 27 :=
  ⟨rfl, rfl⟩

/-- C10: on an `Algo_CTB_QScale_Constant`, `setParams(p)` leaves `mChildAlgo`
unchanged and `setChildAlgo(algo)` leaves `getQP()` unchanged. -/
theorem setParams_setChildAlgo_frame (a : Algo_CTB_QScale_Constant)
    (p : Algo_CTB_QScale_Constant.params) (algo : Ptr Algo_CB_Split_BruteForce) :
    (a.setParams p).mChildAlgo = a.mChildAlgo ∧ (a.setChildAlgo algo).getQP = a.getQP :=
  ⟨rfl, rfl⟩

/-! ## The decision stages (specification sections 4.1 to 4.3) -/

section Decisions

variable {S C : Type}

/-- C2: `Algo_CB_IntraPartMode_Fixed` configured with NxN is a total function
of its inputs (it has no failure result); invoked at a tree depth below the
maximum depth it returns a CB leaf that uses 2Nx2N, with the single prediction
mode found for the whole block; invoked at depth equal to the maximum depth
(whatever that maximum is, zero included) it returns an NxN leaf with the
four prediction modes found for the quadrants. -/
theorem Algo_CB_IntraPartMode_Fixed_analyze_NxN (self : Algo_CB_IntraPartMode_Fixed)
    (ectx : encoder_context) (prim : Primitives S C) (ctxModel : S)
    (x0 y0 log2CbSize ctDepth : Nat) (qp : Int)
    (hNxN : self.mParams.partMode = PartMode.PART_NxN) :
    (ctDepth < ectx.maxDepth →
      (self.analyze ectx prim ctxModel x0 y0 log2CbSize ctDepth qp).cb =
        enc_cb.leaf x0 y0 log2CbSize ctDepth qp PartMode.PART_2Nx2N
          [prim.find_best_intra_mode ctxModel x0 y0 log2CbSize]) ∧
    (self.analyze ectx prim ctxModel x0 y0 log2CbSize ectx.maxDepth qp).cb =
      enc_cb.leaf x0 y0 log2CbSize ectx.maxDepth qp PartMode.PART_NxN
        (intra_modes_NxN prim ctxModel x0 y0 log2CbSize) ∧
    (intra_modes_NxN prim ctxModel x0 y0 log2CbSize).length = 4 := by
  refine ⟨?_, ?_, rfl⟩
  · intro hDepth
    have hne : ctDepth ≠ ectx.maxDepth := Nat.ne_of_lt hDepth
    simp [Algo_CB_IntraPartMode_Fixed.analyze, hNxN, hne, candidate_2Nx2N]
  · simp [Algo_CB_IntraPartMode_Fixed.analyze, hNxN, candidate_NxN]

/-- Witness for C2: the fixed decider configured with NxN on a 16x16 block,
at depth 1 (below the maximum depth 2), at depth 2 with maximum depth 2, and
at depth 0 with maximum depth 0. -/
theorem Algo_CB_IntraPartMode_Fixed_analyze_NxN_witness :
    ((Algo_CB_IntraPartMode_Fixed.new.setParams { partMode := PartMode.PART_NxN }).analyze
        testContext testPrimitives 0 0 0 4 1 30).cb =
      enc_cb.leaf 0 0 4 1 30 PartMode.PART_2Nx2N [4] ∧
    ((Algo_CB_IntraPartMode_Fixed.new.setParams { partMode := PartMode.PART_NxN }).analyze
        testContext testPrimitives 0 0 0 4 2 30).cb =
      enc_cb.leaf 0 0 4 2 30 PartMode.PART_NxN [3, 15, 31, 1] ∧
    ((Algo_CB_IntraPartMode_Fixed.new.setParams { partMode := PartMode.PART_NxN }).analyze
        { Log2MinCbSize := 3, maxDepth := 0 } testPrimitives 0 0 0 4 0 30).cb =
      enc_cb.leaf 0 0 4 0 30 PartMode.PART_NxN [3, 15, 31, 1] :=
  ⟨(Algo_CB_IntraPartMode_Fixed_analyze_NxN
      (Algo_CB_IntraPartMode_Fixed.new.setParams { partMode := PartMode.PART_NxN })
      testContext testPrimitives 0 0 0 4 1 30 rfl).1 (by decide),
   (Algo_CB_IntraPartMode_Fixed_analyze_NxN
      (Algo_CB_IntraPartMode_Fixed.new.setParams { partMode := PartMode.PART_NxN })
      testContext testPrimitives 0 0 0 4 1 30 rfl).2.1,
   (Algo_CB_IntraPartMode_Fixed_analyze_NxN
      (Algo_CB_IntraPartMode_Fixed.new.setParams { partMode := PartMode.PART_NxN })
      { Log2MinCbSize := 3, maxDepth := 0 } testPrimitives 0 0 0 4 0 30 rfl).2.1⟩

/-- C7: `Algo_CB_IntraPartMode_BruteForce::analyze` returns one of the
candidates it tries (the 2Nx2N candidate, and the NxN candidate whenever NxN is
structurally legal), and the cost of what it returns is less than or equal to
the cost of each candidate tried. -/
theorem Algo_CB_IntraPartMode_BruteForce_analyze_cheapest [LinearOrder C]
    (self : Algo_CB_IntraPartMode_BruteForce)
    (ectx : encoder_context) (prim : Primitives S C) (ctxModel : S)
    (x0 y0 log2CbSize ctDepth : Nat) (qp : Int) :
    (self.analyze ectx prim ctxModel x0 y0 log2CbSize ctDepth qp).rd_cost ≤
      (candidate_2Nx2N prim ctxModel x0 y0 log2CbSize ctDepth qp).rd_cost ∧
    (NxN_legal ectx log2CbSize ctDepth = true →
      (self.analyze ectx prim ctxModel x0 y0 log2CbSize ctDepth qp).rd_cost ≤
        (candidate_NxN prim ctxModel x0 y0 log2CbSize ctDepth qp).rd_cost) ∧
    (self.analyze ectx prim ctxModel x0 y0 log2CbSize ctDepth qp =
        candidate_2Nx2N prim ctxModel x0 y0 log2CbSize ctDepth qp ∨
      (NxN_legal ectx log2CbSize ctDepth = true ∧
        self.analyze ectx prim ctxModel x0 y0 log2CbSize ctDepth qp =
          candidate_NxN prim ctxModel x0 y0 log2CbSize ctDepth qp)) := by
  rw [Algo_CB_IntraPartMode_BruteForce_analyze_eq]
  by_cases hl : NxN_legal ectx log2CbSize ctDepth = true
  · rw [if_pos hl]
    by_cases hc : (candidate_NxN prim ctxModel x0 y0 log2CbSize ctDepth qp).rd_cost <
        (candidate_2Nx2N prim ctxModel x0 y0 log2CbSize ctDepth qp).rd_cost
    · rw [if_pos hc]
      exact ⟨le_of_lt hc, fun _ => le_refl _, Or.inr ⟨hl, rfl⟩⟩
    · rw [if_neg hc]
      exact ⟨le_refl _, fun _ => not_lt.mp hc, Or.inl rfl⟩
  · rw [if_neg hl]
    exact ⟨le_refl _, fun h => absurd h hl, Or.inl rfl⟩

/-- Witness for C7: a 16x16 block at the maximum depth 2, where NxN is legal
and is the cheaper candidate. -/
theorem Algo_CB_IntraPartMode_BruteForce_analyze_cheapest_witness :
    NxN_legal testContext 4 2 = true ∧
    ((Algo_CB_IntraPartMode_BruteForce.mk).analyze testContext testPrimitives 0 0 0 4 2 30).rd_cost ≤
      (candidate_NxN testPrimitives 0 0 0 4 2 30).rd_cost ∧
    (candidate_NxN testPrimitives 0 0 0 4 2 30).rd_cost = 68 ∧
    (candidate_2Nx2N testPrimitives 0 0 0 4 2 30).rd_cost = 257 :=
  ⟨by decide,
   (Algo_CB_IntraPartMode_BruteForce_analyze_cheapest Algo_CB_IntraPartMode_BruteForce.mk
      testContext testPrimitives 0 0 0 4 2 30).2.1 (by decide),
   by decide, by decide⟩

/-- C3: for every block on which both no-split and split are structurally
legal, a wired `Algo_CB_Split_BruteForce::analyze` returns a subtree whose RD
cost is less than or equal to the cost of forcing no-split
(`encode_cb_no_split`) and less than or equal to the cost of forcing split
(`encode_cb_split`), each computed from the same starting state snapshot. -/
theorem Algo_CB_Split_BruteForce_analyze_cheapest [LinearOrder C] [Add C]
    (self : Algo_CB_Split_BruteForce) (intra : Algo_CB_IntraPartMode)
    (ectx : encoder_context) (prim : Primitives S C) (ctxModel : S)
    (x0 y0 log2CbSize ctDepth : Nat) (qp : Int)
    (hWired : self.mIntraPartModeAlgo = some intra)
    (hLegal : can_split_CB ectx log2CbSize ctDepth = true) :
    ∃ r, self.analyze ectx prim ctxModel x0 y0 log2CbSize ctDepth qp = some r ∧
      r.rd_cost ≤ (encode_cb_no_split intra ectx prim ctxModel x0 y0 log2CbSize ctDepth qp).rd_cost ∧
      r.rd_cost ≤ (encode_cb_split intra ectx prim ctxModel x0 y0 log2CbSize ctDepth qp).rd_cost := by
  obtain ⟨l, rfl⟩ := can_split_CB_pos ectx log2CbSize ctDepth hLegal
  refine ⟨encode_cb_may_split intra ectx prim qp (l + 1) ctxModel x0 y0 ctDepth,
    by simp only [Algo_CB_Split_BruteForce.analyze, hWired], ?_⟩
  rw [encode_cb_may_split_succ, if_pos hLegal]
  by_cases hc : (encode_cb_split intra ectx prim ctxModel x0 y0 (l + 1) ctDepth qp).rd_cost <
      (encode_cb_no_split intra ectx prim ctxModel x0 y0 (l + 1) ctDepth qp).rd_cost
  · rw [if_pos hc]
    exact ⟨le_of_lt hc, le_refl _⟩
  · rw [if_neg hc]
    exact ⟨le_refl _, not_lt.mp hc⟩

/-- Witness for C3: a 32x32 block at depth 0 with minimum CB size 8x8 and
maximum depth 2, decided by a split decider wired to the fixed NxN decider;
forcing no-split costs 1025, forcing split costs 325. -/
theorem Algo_CB_Split_BruteForce_analyze_cheapest_witness :
    can_split_CB testContext 5 0 = true ∧
    (encode_cb_no_split (Algo_CB_IntraPartMode.Fixed { mParams := { partMode := PartMode.PART_NxN } })
      testContext testPrimitives 0 0 0 5 0 30).rd_cost = 1025 ∧
    (encode_cb_split (Algo_CB_IntraPartMode.Fixed { mParams := { partMode := PartMode.PART_NxN } })
      testContext testPrimitives 0 0 0 5 0 30).rd_cost = 325 ∧
    ∃ r, (Algo_CB_Split_BruteForce.mk
        (some (Algo_CB_IntraPartMode.Fixed { mParams := { partMode := PartMode.PART_NxN } }))).analyze
          testContext testPrimitives 0 0 0 5 0 30 = some r ∧
      r.rd_cost ≤ 1025 ∧ r.rd_cost ≤ 325 :=
  ⟨by decide, by decide, by decide,
   Algo_CB_Split_BruteForce_analyze_cheapest
    (Algo_CB_Split_BruteForce.mk
      (some (Algo_CB_IntraPartMode.Fixed { mParams := { partMode := PartMode.PART_NxN } })))
    (Algo_CB_IntraPartMode.Fixed { mParams := { partMode := PartMode.PART_NxN } })
    testContext testPrimitives 0 0 0 5 0 30 rfl (by decide)⟩

/-- C4: a wired `Algo_CTB_QScale_Constant::analyze` returns exactly what its
child CB-split decider returns when invoked with `qp == getQP()`, and every CB
leaf of that subtree has QP field equal to the configured value. -/
theorem Algo_CTB_QScale_Constant_analyze_leafQPs [LinearOrder C] [Add C]
    (self : Algo_CTB_QScale_Constant) (child : Algo_CB_Split_BruteForce)
    (intra : Algo_CB_IntraPartMode)
    (ectx : encoder_context) (prim : Primitives S C) (ctxModel : S)
    (ctb_x ctb_y log2CtbSize ctDepth : Nat)
    (hChild : self.mChildAlgo = some child)
    (hIntra : child.mIntraPartModeAlgo = some intra) :
    ∃ r, self.analyze ectx prim ctxModel ctb_x ctb_y log2CtbSize ctDepth = some r ∧
      child.analyze ectx prim ctxModel ctb_x ctb_y log2CtbSize ctDepth self.getQP = some r ∧
      ∀ q ∈ r.cb.leafQPs, q = self.getQP := by
  refine ⟨encode_cb_may_split intra ectx prim self.getQP log2CtbSize ctxModel ctb_x ctb_y ctDepth,
    ?_, ?_, ?_⟩
  · simp only [Algo_CTB_QScale_Constant.analyze, hChild, Algo_CB_Split_BruteForce.analyze, hIntra]
  · simp only [Algo_CB_Split_BruteForce.analyze, hIntra]
  · exact encode_cb_may_split_leafQPs intra ectx prim self.getQP log2CtbSize ctxModel ctb_x ctb_y
      ctDepth

/-- Witness for C4: a selector configured with QP 27, wired to a split decider
that is wired to the fixed NxN decider, on a 32x32 CTB: the returned subtree
has sixteen leaves and each of them has QP 27. -/
theorem Algo_CTB_QScale_Constant_analyze_leafQPs_witness :
    Option.map (fun r => r.cb.leafQPs.length)
      (((Algo_CTB_QScale_Constant.new.setParams { mQP := 27 }).setChildAlgo
        (some (Algo_CB_Split_BruteForce.mk
          (some (Algo_CB_IntraPartMode.Fixed { mParams := { partMode := PartMode.PART_NxN } }))))).analyze
        testContext testPrimitives 0 0 0 5 0) = some 16 ∧
    ∃ r, ((Algo_CTB_QScale_Constant.new.setParams { mQP := 27 }).setChildAlgo
        (some (Algo_CB_Split_BruteForce.mk
          (some (Algo_CB_IntraPartMode.Fixed { mParams := { partMode := PartMode.PART_NxN } }))))).analyze
        testContext testPrimitives 0 0 0 5 0 = some r ∧
      ∀ q ∈ r.cb.leafQPs, q = 27 :=
  ⟨by decide,
   (Algo_CTB_QScale_Constant_analyze_leafQPs
      ((Algo_CTB_QScale_Constant.new.setParams { mQP := 27 }).setChildAlgo
        (some (Algo_CB_Split_BruteForce.mk
          (some (Algo_CB_IntraPartMode.Fixed { mParams := { partMode := PartMode.PART_NxN } })))))
      (Algo_CB_Split_BruteForce.mk
        (some (Algo_CB_IntraPartMode.Fixed { mParams := { partMode := PartMode.PART_NxN } })))
      (Algo_CB_IntraPartMode.Fixed { mParams := { partMode := PartMode.PART_NxN } })
      testContext testPrimitives 0 0 0 5 0 rfl rfl).imp (fun _ h => ⟨h.1, h.2.2⟩)⟩

end Decisions
